import Mathlib

/-!
# Verification of the moonlight-web streamer relay core

A shallow embedding of the video relay state machine, the WebSocket
transport sender, the RTT estimator and the windowed stats aggregator of
the `moonlight-webstream-reencode-ffmpeg-server` repository
(`streamer/src/video.rs`, `streamer/src/transport/web_socket/mod.rs`,
`streamer/src/ffmpeg.rs`), together with proofs of the behavioural
properties stated in the design document.

Bytes are modelled as `Nat` (each value below 256 in practice); byte
sequences as `List Nat`; Rust `Duration`/`Instant` values as `Nat`
nanosecond counts; `u64` saturating addition is explicit.
-/

namespace Streamer

/-- `u64::MAX`, the saturation bound of `u64::saturating_add`. -/
def u64Max : Nat := 2 ^ 64 - 1

/-- Rust `u64::saturating_add`. -/
def satAdd64 (a b : Nat) : Nat := min (a + b) u64Max

/-- The low five bits of a NAL header byte (`nal[0] & 0x1f` in
`cache_parameter_sets` / `frame_has_idr`); for `Nat` this is `% 32`. -/
def nalType (b : Nat) : Nat := b % 32

/-- Inner `while` loop of `split_annexb_nals` (video.rs): starting from
`e`, advance until the next 3- or 4-byte Annex-B start code begins at `e`
or `e + 3 ≥ data.len()`.  `fuel` bounds the iteration count; any
`fuel ≥ data.length` is exact. -/
def findNalEnd (data : List Nat) : Nat → Nat → Nat
  | e, 0 => e
  | e, fuel + 1 =>
    if e + 3 < data.length then
      if data.getD e 0 = 0 ∧ data.getD (e + 1) 0 = 0 ∧
          (data.getD (e + 2) 0 = 1 ∨
            (e + 3 < data.length ∧ data.getD (e + 2) 0 = 0 ∧
              data.getD (e + 3) 0 = 1)) then
        e
      else
        findNalEnd data (e + 1) fuel
    else
      e

/-- Outer `while` loop of `split_annexb_nals`: scan for a start code at
index `i`, then slice off the NAL body up to the next start code.
Mirrors video.rs lines 514-548; the `i += 1; continue` branch and the
`i = end` reassignment both strictly increase `i`, so `fuel =
data.length` iterations suffice. -/
def splitLoop (data : List Nat) : Nat → Nat → List (List Nat)
  | _, 0 => []
  | i, fuel + 1 =>
    if i + 3 < data.length then
      let start? : Option Nat :=
        if data.getD i 0 = 0 ∧ data.getD (i + 1) 0 = 0 ∧ data.getD (i + 2) 0 = 1 then
          some (i + 3)
        else if i + 4 < data.length ∧ data.getD i 0 = 0 ∧ data.getD (i + 1) 0 = 0 ∧
            data.getD (i + 2) 0 = 0 ∧ data.getD (i + 3) 0 = 1 then
          some (i + 4)
        else
          none
      match start? with
      | none => splitLoop data (i + 1) fuel
      | some start =>
        let e := findNalEnd data start data.length
        let e := if e + 3 ≥ data.length then data.length else e
        let acc :=
          if start < e ∧ e ≤ data.length then
            [(data.drop start).take (e - start)]
          else
            []
        acc ++ splitLoop data e fuel
    else
      []

/-- `split_annexb_nals` (video.rs): split an Annex-B byte stream into NAL
bodies (start codes stripped). -/
def split_annexb_nals (data : List Nat) : List (List Nat) :=
  splitLoop data 0 data.length

/-- Relay-side per-connection decoder state: the mutable fields of
`StreamVideoDecoder` that the unit-processing path touches.  The FFmpeg
pipeline is carried as its configuration plus the `initialized` flag
(the codec contexts themselves live behind the backend boundary). -/
structure FfmpegPipelineConfig where
  encoder : String
  preset : String
  bitrate_kbps : Nat
  fps : Nat
  threads : Option Nat
  deriving DecidableEq, Repr

/-- The observable fields of `FfmpegPipeline` (ffmpeg.rs): its build
configuration and whether `init` has run. -/
structure FfmpegPipeline where
  config : FfmpegPipelineConfig
  initialized : Bool
  deriving DecidableEq, Repr

/-- `FfmpegPipeline::new(config)`: fresh pipeline, not yet initialized. -/
def FfmpegPipeline.new (config : FfmpegPipelineConfig) : FfmpegPipeline :=
  ⟨config, false⟩

/-- Mutable state of `StreamVideoDecoder` (video.rs lines 20-29) touched
by `submit_decode_unit`. -/
structure DecoderState where
  ffmpeg : Option FfmpegPipeline
  cached_sps : Option (List Nat)
  cached_pps : Option (List Nat)
  needs_headers : Bool
  waiting_for_idr : Bool
  deriving DecidableEq, Repr

/-- Body of the `for nal in split_annexb_nals(annexb)` loop in
`cache_parameter_sets`: skip empty NALs, re-attach the 4-byte start code
and store SPS (type 7) / PPS (type 8). -/
def cacheOneNal (s : DecoderState) (nal : List Nat) : DecoderState :=
  match nal with
  | [] => s
  | b :: _ =>
    let with_start := [0, 0, 0, 1] ++ nal
    if nalType b = 7 then
      { s with cached_sps := some with_start }
    else if nalType b = 8 then
      { s with cached_pps := some with_start }
    else
      s

/-- `StreamVideoDecoder::cache_parameter_sets` (video.rs lines 32-53). -/
def cache_parameter_sets (s : DecoderState) (annexb : List Nat) : DecoderState :=
  (split_annexb_nals annexb).foldl cacheOneNal s

/-- `StreamVideoDecoder::inject_headers_if_needed` (video.rs lines
55-71): returns the possibly header-prefixed frame together with the
updated state (`needs_headers` is cleared exactly when both parameter
sets were available). -/
def inject_headers_if_needed (s : DecoderState) (frame : List Nat) :
    Option (List Nat) × DecoderState :=
  if ¬s.needs_headers then
    (some frame, s)
  else
    match s.cached_sps, s.cached_pps with
    | some sps, some pps =>
      (some (sps ++ pps ++ frame), { s with needs_headers := false })
    | _, _ => (none, s)

/-- `StreamVideoDecoder::frame_has_idr` (video.rs lines 73-86): does any
nonempty NAL in the frame have type 5? -/
def frame_has_idr (annexb : List Nat) : Bool :=
  (split_annexb_nals annexb).any fun nal =>
    match nal with
    | [] => false
    | b :: _ => nalType b = 5

/-- `FrameType` of a decode unit (moonlight bindings). -/
inductive FrameType where
  | idr
  | pFrame
  deriving DecidableEq, Repr

/-- `DecodeResult` returned to the streaming engine. -/
inductive DecodeResult where
  | ok
  | needIdr
  deriving DecidableEq, Repr

/-- A `VideoDecodeUnit`: one or more byte buffers, a frame type,
timestamps and an optional host-side processing latency (nanoseconds). -/
structure VideoDecodeUnit where
  buffers : List (List Nat)
  frame_type : FrameType
  presentation_time_us : Nat
  rtp_timestamp : Nat
  frame_processing_latency : Option Nat
  deriving DecidableEq, Repr

/-- Modelled from the spec: the `TransportError` enum lives in
transport/mod.rs, which is not under src/; the spec's error taxonomy
(§7) distinguishes the connection-fatal channel-closed condition from
other, absorbed conditions, so the type has more than one inhabitant. -/
inductive TransportError where
  | closed
  | other
  deriving DecidableEq, Repr

/-- An inbound packet (spec §3: `RequestVideoIdr`, `Rtt{sequence_number}`). -/
inductive InboundPacket where
  | requestVideoIdr
  | rtt (sequence_number : Nat)
  deriving DecidableEq, Repr

/-- Raw start-stream settings carried by `StreamClientMessage::StartStream`. -/
structure StartStreamFields where
  bitrate : Nat
  packet_size : Nat
  fps : Nat
  width : Nat
  height : Nat
  play_audio_local : Bool
  video_supported_formats : Nat
  video_colorspace : Nat
  video_color_range_full : Bool
  hdr : Bool
  deriving DecidableEq, Repr

/-- A `TransportEvent` placed on the bounded outbound event channel. -/
inductive TransportEvent where
  | sendIpc (bytes : List Nat)
  | recvPacket (packet : InboundPacket)
  | startStream (settings : StartStreamFields)
  deriving DecidableEq, Repr

/-- Modelled from the spec: `TransportChannelId::HOST_VIDEO` is defined
in the common crate, not under src/; the spec fixes only that it is a
one-byte tag from a closed set, so a representative constant is used. -/
def HOST_VIDEO : Nat := 0

/-- Modelled from the spec: `ByteBuffer::put_u32` (buffer.rs is not
under src/) writes a fixed-width 4-byte integer, big/native-endian as
configured (spec §4.1); big-endian is used here. -/
def putU32 (v : Nat) : List Nat :=
  [v / 2 ^ 24 % 256, v / 2 ^ 16 % 256, v / 2 ^ 8 % 256, v % 256]

/-- State of a `WebSocketTransportSender` together with the observable
history of its outbound event channel.  `channelOpen` is false once the
event receiver has been dropped (`send` on the channel then errors);
`sent` records the events successfully placed on the channel. -/
structure SenderState where
  channelOpen : Bool
  needs_idr : Bool
  sent : List TransportEvent
  deriving DecidableEq, Repr

/-- `WebSocketTransportSender::send_video_unit` (web_socket/mod.rs lines
167-205): frame the unit as `[HOST_VIDEO][frame_type:1][pts_us:4]`
followed by the concatenated buffers, send it, then consume the
`needs_idr` flag with a compare-exchange from `true` to `false`.
The byte layout written through `ByteBuffer` (buffer.rs is not under
src/) follows the spec's wire protocol (§6). -/
def send_video_unit (st : SenderState) (unit : VideoDecodeUnit) :
    Except TransportError DecodeResult × SenderState :=
  let new_buffer :=
    [HOST_VIDEO,
     match unit.frame_type with
     | FrameType.idr => 1
     | FrameType.pFrame => 0] ++
    putU32 unit.presentation_time_us ++
    unit.buffers.foldl (fun acc b => acc ++ b) []
  if ¬st.channelOpen then
    (Except.error TransportError.closed, st)
  else
    let st := { st with sent := st.sent ++ [TransportEvent.sendIpc new_buffer] }
    if st.needs_idr then
      (Except.ok DecodeResult.needIdr, { st with needs_idr := false })
    else
      (Except.ok DecodeResult.ok, st)

/-- Payload of an outbound `Stats` packet (`StreamerStatsUpdate`);
duration fields are nanosecond counts, byte rates are kept as raw byte
totals plus the sampling interval (the float kilobit conversion is
presentation only). -/
inductive StatsReport where
  | browserRtt (rtt_ns : Nat)
  | video (host : Option (Nat × Nat × Nat)) (minStreamer maxStreamer avgStreamer : Nat)
  | bandwidth (incomingBytes outgoingBytes interval_ns : Nat)
  | rttInfo (rtt_ns rtt_variance_ns : Nat)
  deriving DecidableEq, Repr

/-- An `OutboundPacket` (spec §3 data model, matching the variants
constructed in src/). -/
inductive OutboundPacket where
  | videoUnit (payload : List Nat) (timestamp : Nat) (is_keyframe : Bool)
  | audioSample (payload : List Nat)
  | rtt (sequence_number : Nat)
  | stats (report : StatsReport)
  deriving DecidableEq, Repr

/-- `send_packet` (web_socket/mod.rs lines 80-112).  `serialize` stands
for `OutboundPacket::serialize` (transport/mod.rs, not under src/),
returning the channel id and payload bytes or `none` on failure; the
range bookkeeping of lines 94-99 nets out to placing the id byte
immediately before the payload.  A failed serialization is dropped with
a warning and the call still succeeds; a closed channel is the only
error. -/
def send_packet (serialize : OutboundPacket → Option (Nat × List Nat))
    (st : SenderState) (packet : OutboundPacket) :
    Except TransportError Unit × SenderState :=
  match serialize packet with
  | none => (Except.ok (), st)
  | some (id, payload) =>
    if ¬st.channelOpen then
      (Except.error TransportError.closed, st)
    else
      (Except.ok (),
       { st with sent := st.sent ++ [TransportEvent.sendIpc (id :: payload)] })

/-- Result of one `recv_rtt` round (web_socket/mod.rs lines 114-159):
whether the sequence mismatch warning fired, the round-trip time put on
the stats channel, the updated shared `(send_time, sequence_number)`
pair, and the sender state after the two packet sends. -/
structure RecvRttResult where
  mismatch : Bool
  reported_rtt : Nat
  pair : Nat × Nat
  sender : SenderState
  deriving Repr

/-- `recv_rtt`: read the shared pair, warn on a sequence mismatch (the
round continues either way), report `now - send` as the RTT, sleep,
increment the sequence number (`u16`, hence mod `2^16`), store the new
pair and send the next probe.  `now` is the time on entry and `now2` the
time after the 200 ms sleep; both packet sends have their errors logged,
not propagated. -/
def recv_rtt (serialize : OutboundPacket → Option (Nat × List Nat))
    (pair : Nat × Nat) (st : SenderState) (recv_sequence_number : Nat)
    (now now2 : Nat) : RecvRttResult :=
  let send := pair.1
  let sequence_number := pair.2
  let mismatch := recv_sequence_number ≠ sequence_number
  let rtt := now - send
  let st := (send_packet serialize st
    (OutboundPacket.stats (StatsReport.browserRtt rtt))).2
  let sequence_number := (sequence_number + 1) % 2 ^ 16
  let pair := (now2, sequence_number)
  let st := (send_packet serialize st (OutboundPacket.rtt sequence_number)).2
  { mismatch := mismatch, reported_rtt := rtt, pair := pair, sender := st }

/-- A `ServerIpcMessage` as dispatched by `on_ipc_message`: a raw
transport frame, a start-stream control message, or anything else
(ignored by the `_ => {}` arm). -/
inductive ServerIpcMessage where
  | webSocketTransport (bytes : List Nat)
  | startStream (fields : StartStreamFields)
  | otherMessage
  deriving DecidableEq, Repr

/-- `on_ipc_message` (web_socket/mod.rs lines 241-322).  `deserialize`
stands for `InboundPacket::deserialize` (transport/mod.rs, not under
src/).  Returns the call result, the new sender state, and the list of
sequence numbers passed to spawned `recv_rtt` rounds.  An empty or
undecodable frame is dropped with a warning (`Ok`); only a closed event
channel produces an error. -/
def on_ipc_message (deserialize : Nat → List Nat → Option InboundPacket)
    (st : SenderState) (msg : ServerIpcMessage) :
    Except TransportError Unit × SenderState × List Nat :=
  match msg with
  | ServerIpcMessage.webSocketTransport bytes =>
    match bytes with
    | [] => (Except.ok (), st, [])
    | channel_id :: payload =>
      match deserialize channel_id payload with
      | none => (Except.ok (), st, [])
      | some packet =>
        let st :=
          if packet = InboundPacket.requestVideoIdr then
            { st with needs_idr := true }
          else
            st
        let spawned :=
          match packet with
          | InboundPacket.rtt n => [n]
          | _ => []
        if ¬st.channelOpen then
          (Except.error TransportError.closed, st, spawned)
        else
          (Except.ok (),
           { st with sent := st.sent ++ [TransportEvent.recvPacket packet] },
           spawned)
  | ServerIpcMessage.startStream fields =>
    if ¬st.channelOpen then
      (Except.error TransportError.closed, st, [])
    else
      (Except.ok (),
       { st with sent := st.sent ++ [TransportEvent.startStream fields] },
       [])
  | ServerIpcMessage.otherMessage => (Except.ok (), st, [])

/-- `ReencodeCodec` from the common API bindings. -/
inductive ReencodeCodec where
  | h264
  | vp8
  deriving DecidableEq, Repr

/-- Reencode settings read from `stream.reencode_settings`. -/
structure ReencodeSettings where
  enabled : Bool
  codec : ReencodeCodec
  bitrate_kbps : Nat
  preset : Option String
  threads : Option Nat
  deriving DecidableEq, Repr

/-- `VideoFormat` values distinguished by `map_input_codec`. -/
inductive VideoFormat where
  | h264
  | h264High8_444
  | h265
  | h265Main10
  | otherFormat
  deriving DecidableEq, Repr

/-- FFmpeg codec ids produced by `map_input_codec`. -/
inductive CodecId where
  | h264
  | hevc
  deriving DecidableEq, Repr

/-- `map_input_codec` (video.rs lines 506-512). -/
def map_input_codec (format : VideoFormat) : Option CodecId :=
  match format with
  | VideoFormat.h264 => some CodecId.h264
  | VideoFormat.h264High8_444 => some CodecId.h264
  | VideoFormat.h265 => some CodecId.hevc
  | VideoFormat.h265Main10 => some CodecId.hevc
  | VideoFormat.otherFormat => none

/-- The negotiated `VideoSetup` stored in `stream.stream_setup.video`. -/
structure VideoSetup where
  redraw_rate : Nat
  width : Nat
  height : Nat
  format : VideoFormat
  deriving DecidableEq, Repr

/-- An `EncodedPacket` produced by `FfmpegPipeline::transcode_annexb`. -/
structure EncodedPacket where
  data : List Nat
  keyframe : Bool
  deriving DecidableEq, Repr

/-- The session-level environment read by `submit_decode_unit`: the
shared reencode settings and stream setup, the configured default
preset, and the behaviour of the out-of-scope codec backend
(`ffmpeg::init` success and the result of `transcode_annexb` on a given
input frame). -/
structure StreamEnv where
  reencode : Option ReencodeSettings
  videoSetup : Option VideoSetup
  defaultPreset : String
  ffmpegGlobalInitOk : Bool
  transcode : List Nat → Except Unit (List EncodedPacket)

/-- The `FfmpegPipelineConfig` derived in `submit_decode_unit` (video.rs
lines 158-176) when reencoding is enabled. -/
def derivedConfig (env : StreamEnv) (r : ReencodeSettings) : FfmpegPipelineConfig :=
  { encoder :=
      match r.codec with
      | ReencodeCodec.h264 => "libx264"
      | ReencodeCodec.vp8 => "libvpx"
    preset :=
      match r.preset with
      | some p => p
      | none => env.defaultPreset
    bitrate_kbps := r.bitrate_kbps
    fps :=
      match env.videoSetup with
      | some v => v.redraw_rate
      | none => 60
    threads := r.threads }

/-- The configuration-change block of `submit_decode_unit` (video.rs
lines 154-207): on a disabled or absent reencode configuration, drop the
pipeline and reset the flags; on an enabled one, rebuild the pipeline
exactly when none exists or any of the five configuration fields
differ, resetting `needs_headers` and `waiting_for_idr`. -/
def updatePipeline (env : StreamEnv) (s : DecoderState) : DecoderState :=
  match env.reencode with
  | some r =>
    if r.enabled then
      let config := derivedConfig env r
      let needs_rebuild : Bool :=
        match s.ffmpeg with
        | some pipeline =>
          decide (pipeline.config.bitrate_kbps ≠ config.bitrate_kbps) ||
          decide (pipeline.config.encoder ≠ config.encoder) ||
          decide (pipeline.config.fps ≠ config.fps) ||
          decide (pipeline.config.preset ≠ config.preset) ||
          decide (pipeline.config.threads ≠ config.threads)
        | none => true
      if needs_rebuild then
        { s with
          ffmpeg := some (FfmpegPipeline.new config)
          needs_headers := true
          waiting_for_idr := true }
      else
        s
    else
      { s with ffmpeg := none, needs_headers := true, waiting_for_idr := false }
  | none =>
    { s with ffmpeg := none, needs_headers := true, waiting_for_idr := false }

/-- The lazy pipeline initialization attempt (video.rs lines 240-256):
when the pipeline is uninitialized and the video setup is known with a
supported input codec, `init_pipeline` runs; its `initialized` flag is
set exactly when the global `ffmpeg::init()` succeeds (later failures
inside `init_pipeline` are logged after the flag is already set). -/
def initAttempt (env : StreamEnv) (p : FfmpegPipeline) : FfmpegPipeline :=
  if p.initialized then
    p
  else
    match env.videoSetup with
    | some vs =>
      match map_input_codec vs.format with
      | some _ => if env.ffmpegGlobalInitOk then { p with initialized := true } else p
      | none => p
    | none => p

/-- Modelled from the spec: `send_h264_annexb` is defined in
transport/mod.rs, which is not under src/.  Per spec §4.2 step 8 and the
wire protocol (§6), it frames the encoded bytes as a video packet
(channel id, keyframe flag, timestamp, payload) and sends it on the
outbound event channel; the result is an error only when the channel is
closed. -/
def sendH264Annexb (st : SenderState) (data : List Nat) (rtp_timestamp : Nat)
    (keyframe : Bool) : Except TransportError Unit × SenderState :=
  let framed :=
    [HOST_VIDEO, if keyframe then 1 else 0] ++ putU32 rtp_timestamp ++ data
  if ¬st.channelOpen then
    (Except.error TransportError.closed, st)
  else
    (Except.ok (), { st with sent := st.sent ++ [TransportEvent.sendIpc framed] })

/-- The outcome of one `submit_decode_unit` call: the `DecodeResult`
handed back to the streaming engine, the decoder and sender states, the
incoming/outgoing byte counts handed to `VideoStats::analyze`, and the
inputs of every `transcode_annexb` invocation made for this unit. -/
structure SubmitOutcome where
  result : DecodeResult
  decoder : DecoderState
  sender : SenderState
  incoming_bytes : Nat
  outgoing_bytes : Nat
  transcodeCalls : List (List Nat)
  deriving Repr

/-- `StreamVideoDecoder::submit_decode_unit` (video.rs lines 140-495;
the two `block_on` bodies are textually identical), for the case where
the stream is alive and a transport sender is present.  Follows the
source line by line: configuration-change handling, byte counting,
IDR gating, parameter-set caching, header injection, lazy pipeline
init, transcode-or-passthrough, and the final result/byte pair. -/
def submit_decode_unit (env : StreamEnv) (s0 : DecoderState) (tr0 : SenderState)
    (unit : VideoDecodeUnit) : SubmitOutcome :=
  let s := updatePipeline env s0
  let incoming_bytes := unit.buffers.foldl (fun acc b => satAdd64 acc b.length) 0
  let enabled :=
    match env.reencode with
    | some r => r.enabled
    | none => false
  if enabled then
    let full_frame := unit.buffers.foldl (fun acc b => acc ++ b) []
    let s := cache_parameter_sets s full_frame
    let has_idr := frame_has_idr full_frame || decide (unit.frame_type = FrameType.idr)
    let force_need_idr := s.waiting_for_idr && !has_idr
    let s :=
      if s.waiting_for_idr && has_idr then { s with waiting_for_idr := false } else s
    if force_need_idr then
      { result := DecodeResult.needIdr, decoder := s, sender := tr0,
        incoming_bytes := incoming_bytes, outgoing_bytes := 0, transcodeCalls := [] }
    else
      let step := inject_headers_if_needed s full_frame
      let frame_with_headers := step.1
      let s := step.2
      let pipelined :
          Bool × DecoderState × SenderState × Nat × List (List Nat) :=
        match s.ffmpeg with
        | some pipeline =>
          let pipeline := initAttempt env pipeline
          let s := { s with ffmpeg := some pipeline }
          match frame_with_headers with
          | some fwh =>
            match env.transcode fwh with
            | Except.ok packets =>
              let sendStep :=
                packets.foldl
                  (fun (acc : SenderState × Nat) p =>
                    ((sendH264Annexb acc.1 p.data unit.rtp_timestamp
                        (p.keyframe || decide (unit.frame_type = FrameType.idr))).2,
                     satAdd64 acc.2 p.data.length))
                  (tr0, 0)
              (true, s, sendStep.1, sendStep.2, [fwh])
            | Except.error _ => (false, s, tr0, 0, [fwh])
          | none => (false, s, tr0, 0, [])
        | none => (false, s, tr0, 0, [])
      let did_transcode := pipelined.1
      let s := pipelined.2.1
      let sender := pipelined.2.2.1
      let outgoing_bytes := pipelined.2.2.2.1
      let calls := pipelined.2.2.2.2
      if did_transcode then
        { result := DecodeResult.ok, decoder := s, sender := sender,
          incoming_bytes := incoming_bytes, outgoing_bytes := outgoing_bytes,
          transcodeCalls := calls }
      else
        let fallback := send_video_unit sender unit
        let outgoing_bytes :=
          match fallback.1 with
          | Except.ok _ => incoming_bytes
          | Except.error _ => outgoing_bytes
        { result := DecodeResult.ok, decoder := s, sender := fallback.2,
          incoming_bytes := incoming_bytes, outgoing_bytes := outgoing_bytes,
          transcodeCalls := calls }
  else
    let sent := send_video_unit tr0 unit
    match sent.1 with
    | Except.error _ =>
      { result := DecodeResult.ok, decoder := s, sender := sent.2,
        incoming_bytes := incoming_bytes, outgoing_bytes := incoming_bytes,
        transcodeCalls := [] }
    | Except.ok value =>
      { result := value, decoder := s, sender := sent.2,
        incoming_bytes := incoming_bytes, outgoing_bytes := incoming_bytes,
        transcodeCalls := [] }

/-- Rust `Duration::MAX` in nanoseconds: `u64::MAX` seconds plus
`999_999_999` nanoseconds. -/
def durationMax : Nat := (2 ^ 64 - 1) * 1000000000 + 999999999

/-- The windowed stats accumulator `VideoStats` (video.rs lines
550-564); `Instant`s and `Duration`s are nanosecond counts. -/
structure VideoStats where
  last_send : Option Nat
  min_host_processing_latency : Nat
  max_host_processing_latency : Nat
  total_host_processing_latency : Nat
  host_processing_frame_count : Nat
  min_streamer_processing_time : Nat
  max_streamer_processing_time : Nat
  total_streamer_processing_time : Nat
  streamer_processing_time_frame_count : Nat
  incoming_bytes : Nat
  outgoing_bytes : Nat
  last_bandwidth_sample : Option Nat
  deriving DecidableEq, Repr

/-- `VideoStats::default()` (`#[derive(Default)]`): every numeric field
zero, every `Option` empty. -/
def VideoStats.default : VideoStats :=
  { last_send := none
    min_host_processing_latency := 0
    max_host_processing_latency := 0
    total_host_processing_latency := 0
    host_processing_frame_count := 0
    min_streamer_processing_time := 0
    max_streamer_processing_time := 0
    total_streamer_processing_time := 0
    streamer_processing_time_frame_count := 0
    incoming_bytes := 0
    outgoing_bytes := 0
    last_bandwidth_sample := none }

/-- `Duration::checked_div(count as u32).unwrap_or(Duration::ZERO)`:
the `usize → u32` cast reduces mod `2^32`, and a zero divisor is
guarded to zero. -/
def checkedDivGuarded (total count : Nat) : Nat :=
  if count % 2 ^ 32 = 0 then 0 else total / (count % 2 ^ 32)

/-- The sampling half of `VideoStats::analyze` (video.rs lines
575-594): fold in the optional host latency, the local processing time
and the byte counts. -/
def VideoStats.sample (s : VideoStats) (host_latency : Option Nat)
    (frame_processing_time incoming outgoing : Nat) : VideoStats :=
  let s :=
    match host_latency with
    | some l =>
      { s with
        min_host_processing_latency := min s.min_host_processing_latency l
        max_host_processing_latency := max s.max_host_processing_latency l
        total_host_processing_latency := s.total_host_processing_latency + l
        host_processing_frame_count := s.host_processing_frame_count + 1 }
    | none => s
  let s :=
    { s with
      min_streamer_processing_time :=
        min s.min_streamer_processing_time frame_processing_time
      max_streamer_processing_time :=
        max s.max_streamer_processing_time frame_processing_time
      total_streamer_processing_time :=
        s.total_streamer_processing_time + frame_processing_time
      streamer_processing_time_frame_count :=
        s.streamer_processing_time_frame_count + 1 }
  { s with
    incoming_bytes := satAdd64 s.incoming_bytes incoming
    outgoing_bytes := satAdd64 s.outgoing_bytes outgoing }

/-- `VideoStats::analyze` (video.rs lines 566-716): sample the inputs;
then, when no report was emitted yet or more than one second has passed
since the last one, emit the latency and bandwidth reports and reset
every accumulator to its identity.  Returns the new state and the
emitted report pair, if any (the additional RTT report sourced from the
external streaming engine is outside the accumulator's state and not
modelled).  The bandwidth report carries the raw byte totals and the
sampling interval; the kilobit-per-second floats derived from them are
presentation only. -/
def VideoStats.analyze (s : VideoStats) (host_latency : Option Nat)
    (frame_processing_time incoming outgoing now : Nat) :
    VideoStats × Option (StatsReport × StatsReport) :=
  let s := VideoStats.sample s host_latency frame_processing_time incoming outgoing
  let shouldSend :=
    match s.last_send with
    | some last_send => decide (last_send + 1000000000 < now)
    | none => true
  if shouldSend then
    let videoReport :=
      StatsReport.video
        (if s.host_processing_frame_count > 0 then
          some (s.min_host_processing_latency, s.max_host_processing_latency,
            checkedDivGuarded s.total_host_processing_latency
              s.host_processing_frame_count)
        else
          none)
        s.min_streamer_processing_time
        s.max_streamer_processing_time
        (checkedDivGuarded s.total_streamer_processing_time
          s.streamer_processing_time_frame_count)
    let bandwidth_interval :=
      match s.last_bandwidth_sample with
      | some last => now - last
      | none => 1000000000
    let bandwidthReport :=
      StatsReport.bandwidth s.incoming_bytes s.outgoing_bytes bandwidth_interval
    ({ last_send := some now
       min_host_processing_latency := durationMax
       max_host_processing_latency := 0
       total_host_processing_latency := 0
       host_processing_frame_count := 0
       min_streamer_processing_time := durationMax
       max_streamer_processing_time := 0
       total_streamer_processing_time := 0
       streamer_processing_time_frame_count := 0
       incoming_bytes := 0
       outgoing_bytes := 0
       last_bandwidth_sample := some now },
     some (videoReport, bandwidthReport))
  else
    (s, none)

/-! ## Specification-side abbreviations and concrete fixtures -/

/-- The wire byte of a `FrameType` (web_socket/mod.rs lines 175-178). -/
def frameTypeByte : FrameType → Nat
  | FrameType.idr => 1
  | FrameType.pFrame => 0

/-- The event a passthrough forward of `unit` places on the outbound
channel: the fixed video framing header followed by the unit's buffers
concatenated byte for byte. -/
def videoUnitMessage (unit : VideoDecodeUnit) : TransportEvent :=
  TransportEvent.sendIpc
    ([HOST_VIDEO, frameTypeByte unit.frame_type] ++
      putU32 unit.presentation_time_us ++ unit.buffers.flatten)

/-- The keyframe test of video.rs lines 224-225: the concatenated frame
contains an IDR NAL or the unit's declared frame type is `Idr`. -/
def unitHasKeyframe (unit : VideoDecodeUnit) : Bool :=
  frame_has_idr unit.buffers.flatten || decide (unit.frame_type = FrameType.idr)

/-- A fixed reencode configuration used by the concrete fixtures. -/
def sampleSettings : ReencodeSettings :=
  { enabled := true, codec := ReencodeCodec.h264, bitrate_kbps := 4000,
    preset := some "fast", threads := none }

/-- A fixed session environment with reencoding enabled; the backend
transcode call is irrelevant to the fixtures that use it and rejects
every frame. -/
def sampleEnv : StreamEnv :=
  { reencode := some sampleSettings
    videoSetup := some
      { redraw_rate := 60, width := 1280, height := 720, format := VideoFormat.h264 }
    defaultPreset := "veryfast"
    ffmpegGlobalInitOk := true
    transcode := fun _ => Except.error () }

/-- The same environment with the reencode configuration absent. -/
def sampleEnvOff : StreamEnv := { sampleEnv with reencode := none }

/-- An open transport sender with no pending keyframe request. -/
def sampleSender : SenderState :=
  { channelOpen := true, needs_idr := false, sent := [] }

/-- A single-buffer non-keyframe decode unit. -/
def samplePUnit : VideoDecodeUnit :=
  { buffers := [[0, 0, 1, 0x41, 5]], frame_type := FrameType.pFrame,
    presentation_time_us := 0, rtp_timestamp := 0, frame_processing_latency := none }

/-- A single-buffer keyframe decode unit (IDR NAL, type 5). -/
def sampleIUnit : VideoDecodeUnit :=
  { buffers := [[0, 0, 1, 0x65, 5]], frame_type := FrameType.idr,
    presentation_time_us := 0, rtp_timestamp := 0, frame_processing_latency := none }

/-- A decoder state with no pipeline and clear flags, as before the
first unit after a fresh reencode enable. -/
def freshDecoder : DecoderState :=
  { ffmpeg := none, cached_sps := none, cached_pps := none,
    needs_headers := false, waiting_for_idr := false }

/-- The pipeline configuration derived from the sample environment. -/
def sampleConfig : FfmpegPipelineConfig := derivedConfig sampleEnv sampleSettings

/-- A decoder mid-session: active pipeline built from the currently
derived configuration, header injection pending, only the SPS cached,
not waiting for a keyframe. -/
def spsOnlyDecoder : DecoderState :=
  { ffmpeg := some { config := sampleConfig, initialized := true }
    cached_sps := some [0, 0, 0, 1, 0x67]
    cached_pps := none
    needs_headers := true
    waiting_for_idr := false }

/-- A non-keyframe unit whose single buffer contains no start code. -/
def headerlessUnit : VideoDecodeUnit :=
  { buffers := [[0x41]], frame_type := FrameType.pFrame,
    presentation_time_us := 0, rtp_timestamp := 0,
    frame_processing_latency := none }

/-- A concrete serializer that always succeeds. -/
def sampleSerialize : OutboundPacket → Option (Nat × List Nat) :=
  fun _ => some (9, [1])

/-- A concrete deserializer: channel 2 decodes to an RTT response with
sequence number 7, channel 4 to a keyframe request, all else fails. -/
def sampleDeserialize : Nat → List Nat → Option InboundPacket :=
  fun b _ =>
    if b = 2 then some (InboundPacket.rtt 7)
    else if b = 4 then some InboundPacket.requestVideoIdr
    else none

/-- `submit_decode_unit` applied to a sequence of units, threading the
decoder and sender states and collecting each unit's outcome. -/
def submitSeq (env : StreamEnv) :
    DecoderState → SenderState → List VideoDecodeUnit → List SubmitOutcome
  | _, _, [] => []
  | s, tr, u :: us =>
    let o := submit_decode_unit env s tr u
    o :: submitSeq env o.decoder o.sender us

/-- One interaction with the transport sender: either the video path
calls `send_video_unit`, or an inbound IPC message is handled. -/
inductive SessionEvent where
  | submitUnit (u : VideoDecodeUnit)
  | ipc (m : ServerIpcMessage)

/-- Does this event carry a decodable `RequestVideoIdr` message? -/
def isIdrRequest (deserialize : Nat → List Nat → Option InboundPacket) :
    SessionEvent → Bool
  | SessionEvent.ipc (ServerIpcMessage.webSocketTransport (b :: bs)) =>
    deserialize b bs == some InboundPacket.requestVideoIdr
  | _ => false

/-- The sender state after one session event. -/
def sessionStep (deserialize : Nat → List Nat → Option InboundPacket)
    (st : SenderState) : SessionEvent → SenderState
  | SessionEvent.submitUnit u => (send_video_unit st u).2
  | SessionEvent.ipc m => (on_ipc_message deserialize st m).2.1

/-- The sender state after a list of session events. -/
def sessionRun (deserialize : Nat → List Nat → Option InboundPacket)
    (st : SenderState) : List SessionEvent → SenderState
  | [] => st
  | e :: es => sessionRun deserialize (sessionStep deserialize st e) es

/-- The results returned by the `send_video_unit` calls of a list of
session events, in order. -/
def sessionResults (deserialize : Nat → List Nat → Option InboundPacket)
    (st : SenderState) :
    List SessionEvent → List (Except TransportError DecodeResult)
  | [] => []
  | SessionEvent.submitUnit u :: es =>
    (send_video_unit st u).1 ::
      sessionResults deserialize (send_video_unit st u).2 es
  | SessionEvent.ipc m :: es =>
    sessionResults deserialize (on_ipc_message deserialize st m).2.1 es

/-- The last NAL of type `t` scanned by the caching loop, with the
4-byte start code re-attached (`none` if no such NAL occurs). -/
def lastParamSet (t : Nat) (nals : List (List Nat)) : Option (List Nat) :=
  nals.foldl
    (fun acc nal =>
      match nal with
      | [] => acc
      | b :: _ => if nalType b = t then some ([0, 0, 0, 1] ++ nal) else acc)
    none

/-! ## General lemmas -/

/-- Folding `extend_from_slice` over buffers equals appending their
concatenation. -/
theorem foldl_append_eq_flatten (l : List (List Nat)) (acc : List Nat) :
    l.foldl (fun a b => a ++ b) acc = acc ++ l.flatten := by
  induction l generalizing acc with
  | nil => simp
  | cons x xs ih => simp [List.foldl_cons, ih, List.append_assoc]

/-- `cache_parameter_sets` only touches the two parameter-set caches. -/
theorem cache_parameter_sets_preserves (s : DecoderState) (annexb : List Nat) :
    (cache_parameter_sets s annexb).ffmpeg = s.ffmpeg ∧
    (cache_parameter_sets s annexb).needs_headers = s.needs_headers ∧
    (cache_parameter_sets s annexb).waiting_for_idr = s.waiting_for_idr := by
  unfold cache_parameter_sets
  induction split_annexb_nals annexb generalizing s with
  | nil => exact ⟨rfl, rfl, rfl⟩
  | cons nal nals ih =>
    have hstep : (cacheOneNal s nal).ffmpeg = s.ffmpeg ∧
        (cacheOneNal s nal).needs_headers = s.needs_headers ∧
        (cacheOneNal s nal).waiting_for_idr = s.waiting_for_idr := by
      unfold cacheOneNal
      cases nal with
      | nil => exact ⟨rfl, rfl, rfl⟩
      | cons b rest =>
        by_cases h7 : nalType b = 7 <;> by_cases h8 : nalType b = 8 <;>
          simp [h7, h8]
    rcases ih (cacheOneNal s nal) with ⟨h1, h2, h3⟩
    exact ⟨h1.trans hstep.1, h2.trans hstep.2.1, h3.trans hstep.2.2⟩

/-- Sampling never touches the two emission timestamps. -/
theorem sample_timestamps (s : VideoStats) (host : Option Nat)
    (fpt incoming outgoing : Nat) :
    (VideoStats.sample s host fpt incoming outgoing).last_send = s.last_send ∧
    (VideoStats.sample s host fpt incoming outgoing).last_bandwidth_sample =
      s.last_bandwidth_sample := by
  cases host <;> simp [VideoStats.sample]

/-! ## Claim theorems -/

/-- C3: with the reencode configuration absent or disabled and the
outbound channel open, `submit_decode_unit` forwards the unit byte for
byte (the concatenation of its buffers after the fixed video framing
header), records `outgoing_bytes = incoming_bytes`, never invokes the
transcoder, and leaves the decoder with no active pipeline,
`needs_headers = true` and `waiting_for_idr = false`. -/
theorem submit_disabled_is_passthrough (env : StreamEnv) (s : DecoderState)
    (tr : SenderState) (unit : VideoDecodeUnit)
    (hdis : env.reencode = none ∨ ∃ r, env.reencode = some r ∧ r.enabled = false)
    (hopen : tr.channelOpen = true) :
    (submit_decode_unit env s tr unit).sender.sent =
      tr.sent ++ [videoUnitMessage unit] ∧
    (submit_decode_unit env s tr unit).outgoing_bytes =
      (submit_decode_unit env s tr unit).incoming_bytes ∧
    (submit_decode_unit env s tr unit).transcodeCalls = [] ∧
    (submit_decode_unit env s tr unit).decoder =
      { s with ffmpeg := none, needs_headers := true, waiting_for_idr := false } := by
  have hmsg : ∀ st : SenderState, st.channelOpen = true →
      (send_video_unit st unit).2.sent = st.sent ++ [videoUnitMessage unit] ∧
      ∃ v, (send_video_unit st unit).1 = Except.ok v := by
    intro st hst
    unfold send_video_unit
    rw [foldl_append_eq_flatten]
    cases hidr : st.needs_idr <;>
      simp [hst, hidr, videoUnitMessage, frameTypeByte]
  rcases hdis with hnone | ⟨r, hr, hen⟩
  · have h := hmsg tr hopen
    rcases h.2 with ⟨v, hv⟩
    unfold submit_decode_unit
    rw [hnone]
    simp only [updatePipeline, hnone]
    rw [hv]
    exact ⟨h.1, rfl, rfl, rfl⟩
  · have h := hmsg tr hopen
    rcases h.2 with ⟨v, hv⟩
    unfold submit_decode_unit
    rw [hr]
    simp only [updatePipeline, hr, hen, if_false, Bool.false_eq_true]
    rw [hv]
    exact ⟨h.1, rfl, rfl, rfl⟩

/-- C3 witness: the hypotheses hold and the conclusion evaluates at a
concrete disabled-environment input. -/
theorem submit_disabled_is_passthrough_witness :
    (sampleEnvOff.reencode = none ∨
      ∃ r, sampleEnvOff.reencode = some r ∧ r.enabled = false) ∧
    sampleSender.channelOpen = true ∧
    (submit_decode_unit sampleEnvOff freshDecoder sampleSender samplePUnit).sender.sent =
      sampleSender.sent ++ [videoUnitMessage samplePUnit] :=
  ⟨Or.inl rfl, rfl,
    (submit_disabled_is_passthrough sampleEnvOff freshDecoder sampleSender samplePUnit
      (Or.inl rfl) rfl).1⟩

/-- C4: with reencoding enabled, the pipeline is rebuilt exactly when no
pipeline exists or the derived configuration differs in at least one of
the five fields; a rebuild installs a fresh pipeline built from the
derived configuration and sets both flags, and when all five fields
agree the state is left entirely unchanged. -/
theorem reencode_rebuild_iff (env : StreamEnv) (s : DecoderState)
    (r : ReencodeSettings) (hr : env.reencode = some r) (hen : r.enabled = true) :
    ((s.ffmpeg = none ∨ ∃ p, s.ffmpeg = some p ∧
        (p.config.encoder ≠ (derivedConfig env r).encoder ∨
         p.config.preset ≠ (derivedConfig env r).preset ∨
         p.config.bitrate_kbps ≠ (derivedConfig env r).bitrate_kbps ∨
         p.config.fps ≠ (derivedConfig env r).fps ∨
         p.config.threads ≠ (derivedConfig env r).threads)) →
      updatePipeline env s =
        { s with
            ffmpeg := some (FfmpegPipeline.new (derivedConfig env r))
            needs_headers := true
            waiting_for_idr := true }) ∧
    (∀ p, s.ffmpeg = some p →
      p.config.encoder = (derivedConfig env r).encoder →
      p.config.preset = (derivedConfig env r).preset →
      p.config.bitrate_kbps = (derivedConfig env r).bitrate_kbps →
      p.config.fps = (derivedConfig env r).fps →
      p.config.threads = (derivedConfig env r).threads →
      updatePipeline env s = s) := by
  unfold updatePipeline
  rw [hr]
  cases hf : s.ffmpeg with
  | none =>
    refine ⟨fun _ => by simp [hen], fun p hp => ?_⟩
    exact absurd hp (by simp)
  | some p =>
    constructor
    · rintro (h | ⟨q, hq, hdiff⟩)
      · exact absurd h (by simp)
      · injection hq with hq
        subst hq
        simp only [hen, eq_self_iff_true, if_true]
        split
        · rfl
        · next hcond =>
          exfalso
          simp only [Bool.or_eq_true, decide_eq_true_eq] at hcond
          exact hcond (by tauto)
    · intro q hq h1 h2 h3 h4 h5
      injection hq with hq
      subst hq
      simp only [hen, eq_self_iff_true, if_true]
      split
      · next hcond =>
        exfalso
        simp only [Bool.or_eq_true, decide_eq_true_eq] at hcond
        tauto
      · rfl

/-- C4 witness: a matching pipeline is kept unchanged and a fresh state
is rebuilt, at concrete inputs. -/
theorem reencode_rebuild_iff_witness :
    sampleEnv.reencode = some sampleSettings ∧ sampleSettings.enabled = true ∧
    updatePipeline sampleEnv freshDecoder =
      { freshDecoder with
          ffmpeg := some (FfmpegPipeline.new (derivedConfig sampleEnv sampleSettings))
          needs_headers := true
          waiting_for_idr := true } :=
  ⟨rfl, rfl,
    (reencode_rebuild_iff sampleEnv freshDecoder sampleSettings rfl rfl).1 (Or.inl rfl)⟩

/-- C10: a fresh stats accumulator (`last_send = None`) emits a report
on the very first `analyze` call, whatever the inputs and the current
time. -/
theorem stats_first_call_emits (s : VideoStats) (host : Option Nat)
    (fpt incoming outgoing now : Nat) (hfresh : s.last_send = none) :
    (VideoStats.analyze s host fpt incoming outgoing now).2.isSome = true ∧
    (VideoStats.analyze s host fpt incoming outgoing now).1.last_send = some now := by
  unfold VideoStats.analyze
  simp only [(sample_timestamps s host fpt incoming outgoing).1, hfresh]
  simp

/-- C10 witness: the default accumulator emits at time zero. -/
theorem stats_first_call_emits_witness :
    VideoStats.default.last_send = none ∧
    (VideoStats.analyze VideoStats.default none 5 100 100 0).2.isSome = true :=
  ⟨rfl, (stats_first_call_emits VideoStats.default none 5 100 100 0 rfl).1⟩

/-- With the event channel open, `send_packet` always returns `Ok`. -/
theorem send_packet_open_ok (serialize : OutboundPacket → Option (Nat × List Nat))
    (st : SenderState) (packet : OutboundPacket) (hopen : st.channelOpen = true) :
    (send_packet serialize st packet).1 = Except.ok () := by
  cases hs : serialize packet with
  | none => simp [send_packet, hs]
  | some x => rcases x with ⟨id, payload⟩; simp [send_packet, hs, hopen]

/-- With the event channel closed, `send_packet` returns `Ok` or the
channel-closed error, nothing else. -/
theorem send_packet_closed_shape
    (serialize : OutboundPacket → Option (Nat × List Nat))
    (st : SenderState) (packet : OutboundPacket) :
    (send_packet serialize st packet).1 = Except.ok () ∨
    (send_packet serialize st packet).1 = Except.error TransportError.closed := by
  cases hs : serialize packet with
  | none => exact Or.inl (by simp [send_packet, hs])
  | some x =>
    rcases x with ⟨id, payload⟩
    cases hopen : st.channelOpen with
    | true => exact Or.inl (by simp [send_packet, hs, hopen])
    | false => exact Or.inr (by simp [send_packet, hs, hopen])

/-- With the event channel open, `on_ipc_message` always returns `Ok`. -/
theorem on_ipc_message_open_ok (deserialize : Nat → List Nat → Option InboundPacket)
    (st : SenderState) (msg : ServerIpcMessage) (hopen : st.channelOpen = true) :
    (on_ipc_message deserialize st msg).1 = Except.ok () := by
  cases msg with
  | webSocketTransport bytes =>
    cases bytes with
    | nil => rfl
    | cons b bs =>
      cases hd : deserialize b bs with
      | none => simp [on_ipc_message, hd]
      | some packet =>
        by_cases hp : packet = InboundPacket.requestVideoIdr <;>
          simp [on_ipc_message, hd, hp, hopen]
  | startStream fields => simp [on_ipc_message, hopen]
  | otherMessage => rfl

/-- `on_ipc_message` returns `Ok` or the channel-closed error, nothing
else. -/
theorem on_ipc_message_shape (deserialize : Nat → List Nat → Option InboundPacket)
    (st : SenderState) (msg : ServerIpcMessage) :
    (on_ipc_message deserialize st msg).1 = Except.ok () ∨
    (on_ipc_message deserialize st msg).1 = Except.error TransportError.closed := by
  cases msg with
  | webSocketTransport bytes =>
    cases bytes with
    | nil => exact Or.inl rfl
    | cons b bs =>
      cases hd : deserialize b bs with
      | none => exact Or.inl (by simp [on_ipc_message, hd])
      | some packet =>
        cases hopen : st.channelOpen with
        | true =>
          exact Or.inl (on_ipc_message_open_ok deserialize st
            (ServerIpcMessage.webSocketTransport (b :: bs)) hopen)
        | false =>
          refine Or.inr ?_
          by_cases hp : packet = InboundPacket.requestVideoIdr <;>
            simp [on_ipc_message, hd, hp, hopen]
  | startStream fields =>
    cases hopen : st.channelOpen with
    | true => exact Or.inl (by simp [on_ipc_message, hopen])
    | false => exact Or.inr (by simp [on_ipc_message, hopen])
  | otherMessage => exact Or.inl rfl

/-- Folding the per-NAL selection of `lastParamSet` from any
accumulator: the last qualifying NAL wins, otherwise the accumulator
survives. -/
theorem lastParamSet_foldl (t : Nat) (nals : List (List Nat)) :
    ∀ acc : Option (List Nat),
    nals.foldl
      (fun acc nal =>
        match nal with
        | [] => acc
        | b :: _ => if nalType b = t then some ([0, 0, 0, 1] ++ nal) else acc)
      acc =
      match lastParamSet t nals with
      | some v => some v
      | none => acc := by
  induction nals with
  | nil => intro acc; rfl
  | cons n ns ih =>
    intro acc
    rw [List.foldl_cons]
    have hR : lastParamSet t (n :: ns) =
        match lastParamSet t ns with
        | some v => some v
        | none =>
          match n with
          | [] => none
          | b :: _ => if nalType b = t then some ([0, 0, 0, 1] ++ n) else none := by
      unfold lastParamSet
      rw [List.foldl_cons]
      exact ih _
    rw [ih _, hR]
    cases h : lastParamSet t ns with
    | some v => rfl
    | none =>
      cases n with
      | nil => rfl
      | cons b rest => by_cases ht : nalType b = t <;> simp [ht]

/-- The two cache fields of a `cacheOneNal` fold are the last scanned
NAL of type 7 resp. 8 (start code re-attached), or the previous cache if
none occurs. -/
theorem cacheOneNal_foldl_char (nals : List (List Nat)) :
    ∀ s : DecoderState,
    ((nals.foldl cacheOneNal s).cached_sps =
      match lastParamSet 7 nals with
      | some v => some v
      | none => s.cached_sps) ∧
    ((nals.foldl cacheOneNal s).cached_pps =
      match lastParamSet 8 nals with
      | some v => some v
      | none => s.cached_pps) := by
  induction nals with
  | nil => intro s; exact ⟨rfl, rfl⟩
  | cons n ns ih =>
    intro s
    constructor
    · have hR : lastParamSet 7 (n :: ns) =
          match lastParamSet 7 ns with
          | some v => some v
          | none =>
            match n with
            | [] => none
            | b :: _ => if nalType b = 7 then some ([0, 0, 0, 1] ++ n) else none := by
        unfold lastParamSet
        rw [List.foldl_cons]
        exact lastParamSet_foldl 7 ns _
      rw [List.foldl_cons, (ih (cacheOneNal s n)).1, hR]
      clear hR
      cases h : lastParamSet 7 ns with
      | some v => rfl
      | none =>
        cases n with
        | nil => rfl
        | cons b rest =>
          by_cases h7 : nalType b = 7 <;> by_cases h8 : nalType b = 8 <;>
            simp [cacheOneNal, h7, h8]
    · have hR : lastParamSet 8 (n :: ns) =
          match lastParamSet 8 ns with
          | some v => some v
          | none =>
            match n with
            | [] => none
            | b :: _ => if nalType b = 8 then some ([0, 0, 0, 1] ++ n) else none := by
        unfold lastParamSet
        rw [List.foldl_cons]
        exact lastParamSet_foldl 8 ns _
      rw [List.foldl_cons, (ih (cacheOneNal s n)).2, hR]
      clear hR
      cases h : lastParamSet 8 ns with
      | some v => rfl
      | none =>
        cases n with
        | nil => rfl
        | cons b rest =>
          by_cases h7 : nalType b = 7 <;> by_cases h8 : nalType b = 8 <;>
            simp [cacheOneNal, h7, h8]

/-- C6: `cache_parameter_sets` stores, as `cached_sps`, the most
recently scanned type-7 NAL of the frame re-prefixed with the 4-byte
start code (keeping the old value when none occurs), and likewise
`cached_pps` for type 8; on the concrete 4-byte-prefixed inputs the
cached bytes are exactly the input byte sequence, and with two SPS NALs
the later one wins. -/
theorem cache_parameter_sets_char (s : DecoderState) (data : List Nat) :
    ((cache_parameter_sets s data).cached_sps =
      match lastParamSet 7 (split_annexb_nals data) with
      | some v => some v
      | none => s.cached_sps) ∧
    ((cache_parameter_sets s data).cached_pps =
      match lastParamSet 8 (split_annexb_nals data) with
      | some v => some v
      | none => s.cached_pps) ∧
    (cache_parameter_sets freshDecoder [0, 0, 0, 1, 0x67, 0xAA]).cached_sps =
      some [0, 0, 0, 1, 0x67, 0xAA] ∧
    (cache_parameter_sets freshDecoder [0, 0, 0, 1, 0x68, 0xBB]).cached_pps =
      some [0, 0, 0, 1, 0x68, 0xBB] ∧
    (cache_parameter_sets freshDecoder
        [0, 0, 0, 1, 0x67, 0xAA, 0, 0, 0, 1, 0x67, 0xCC]).cached_sps =
      some [0, 0, 0, 1, 0x67, 0xCC] :=
  ⟨(cacheOneNal_foldl_char (split_annexb_nals data) s).1,
   (cacheOneNal_foldl_char (split_annexb_nals data) s).2,
   by decide, by decide, by decide⟩

/-- C8: the outbound send path and the inbound message handler return an
error only when the outbound event channel is closed, and that error is
always the channel-closed one; a packet whose serialization fails is
dropped and `send_packet` returns `Ok`, and an empty or undecodable
inbound frame makes `on_ipc_message` return `Ok` with nothing changed. -/
theorem transport_errors_only_closed
    (serialize : OutboundPacket → Option (Nat × List Nat))
    (deserialize : Nat → List Nat → Option InboundPacket)
    (st : SenderState) (packet : OutboundPacket) (msg : ServerIpcMessage) :
    (∀ e st2, send_packet serialize st packet = (Except.error e, st2) →
      e = TransportError.closed ∧ st.channelOpen = false) ∧
    (serialize packet = none →
      send_packet serialize st packet = (Except.ok (), st)) ∧
    (st.channelOpen = true →
      (send_packet serialize st packet).1 = Except.ok ()) ∧
    (st.channelOpen = false → ∀ x, serialize packet = some x →
      (send_packet serialize st packet).1 = Except.error TransportError.closed) ∧
    (∀ e rest, on_ipc_message deserialize st msg = (Except.error e, rest) →
      e = TransportError.closed ∧ st.channelOpen = false) ∧
    (on_ipc_message deserialize st (ServerIpcMessage.webSocketTransport []) =
      (Except.ok (), st, [])) ∧
    (∀ b bs, deserialize b bs = none →
      on_ipc_message deserialize st (ServerIpcMessage.webSocketTransport (b :: bs)) =
        (Except.ok (), st, [])) ∧
    (st.channelOpen = true →
      (on_ipc_message deserialize st msg).1 = Except.ok ()) := by
  refine ⟨?_, ?_, ?_, ?_, ?_, ?_, ?_, ?_⟩
  · intro e st2 h
    have h1 : (send_packet serialize st packet).1 = Except.error e := by rw [h]
    cases hopen : st.channelOpen with
    | true =>
      rw [send_packet_open_ok serialize st packet hopen] at h1
      simp at h1
    | false =>
      rcases send_packet_closed_shape serialize st packet with hsh | hsh
      · rw [hsh] at h1; simp at h1
      · rw [hsh] at h1
        injection h1 with h1
        exact ⟨h1.symm, rfl⟩
  · intro hs
    simp [send_packet, hs]
  · exact send_packet_open_ok serialize st packet
  · intro hopen x hs
    rcases x with ⟨id, payload⟩
    simp [send_packet, hs, hopen]
  · intro e rest h
    have h1 : (on_ipc_message deserialize st msg).1 = Except.error e := by rw [h]
    cases hopen : st.channelOpen with
    | true =>
      rw [on_ipc_message_open_ok deserialize st msg hopen] at h1
      simp at h1
    | false =>
      rcases on_ipc_message_shape deserialize st msg with hsh | hsh
      · rw [hsh] at h1; simp at h1
      · rw [hsh] at h1
        injection h1 with h1
        exact ⟨h1.symm, rfl⟩
  · rfl
  · intro b bs hd
    simp [on_ipc_message, hd]
  · exact on_ipc_message_open_ok deserialize st msg

/-- Two pipeline configurations differ exactly when one of the five
fields differs. -/
theorem config_ne_iff (a b : FfmpegPipelineConfig) :
    a ≠ b ↔ (a.encoder ≠ b.encoder ∨ a.preset ≠ b.preset ∨
      a.bitrate_kbps ≠ b.bitrate_kbps ∨ a.fps ≠ b.fps ∨ a.threads ≠ b.threads) := by
  cases a
  cases b
  simp only [ne_eq, FfmpegPipelineConfig.mk.injEq, not_and]
  tauto

/-- With reencoding enabled, one unit either rebuilds the pipeline
(setting both flags and installing the freshly derived configuration) or
leaves the state untouched. -/
theorem updatePipeline_shape (env : StreamEnv) (s : DecoderState)
    (r : ReencodeSettings) (hr : env.reencode = some r) (hen : r.enabled = true) :
    ((updatePipeline env s).waiting_for_idr = true ∧
      (updatePipeline env s).needs_headers = true ∧
      (updatePipeline env s).ffmpeg =
        some (FfmpegPipeline.new (derivedConfig env r))) ∨
    updatePipeline env s = s := by
  unfold updatePipeline
  rw [hr]
  simp only [hen, eq_self_iff_true, if_true]
  cases hf : s.ffmpeg with
  | none => exact Or.inl ⟨rfl, rfl, rfl⟩
  | some p =>
    split
    · exact Or.inl ⟨rfl, rfl, rfl⟩
    · exact Or.inr rfl

/-- With reencoding enabled, an already-waiting decoder stays waiting
through the configuration step. -/
theorem updatePipeline_keeps_waiting (env : StreamEnv) (s : DecoderState)
    (r : ReencodeSettings) (hr : env.reencode = some r) (hen : r.enabled = true)
    (hw : s.waiting_for_idr = true) :
    (updatePipeline env s).waiting_for_idr = true := by
  rcases updatePipeline_shape env s r hr hen with h | h
  · exact h.1
  · rw [h]
    exact hw

/-- Immediately after a fresh enable, a configuration change, or while
already waiting, the configuration step leaves `waiting_for_idr` set. -/
theorem updatePipeline_gate (env : StreamEnv) (s : DecoderState)
    (r : ReencodeSettings) (hr : env.reencode = some r) (hen : r.enabled = true)
    (hgate : s.ffmpeg = none ∨ s.waiting_for_idr = true ∨
      ∃ p, s.ffmpeg = some p ∧ p.config ≠ derivedConfig env r) :
    (updatePipeline env s).waiting_for_idr = true := by
  rcases hgate with h | h | ⟨p, hp, hne⟩
  · have hrw := (reencode_rebuild_iff env s r hr hen).1 (Or.inl h)
    rw [hrw]
  · exact updatePipeline_keeps_waiting env s r hr hen h
  · have hd := (config_ne_iff p.config (derivedConfig env r)).mp hne
    have hrw := (reencode_rebuild_iff env s r hr hen).1 (Or.inr ⟨p, hp, hd⟩)
    rw [hrw]

/-- A unit without a keyframe processed while `waiting_for_idr` is set
(after the configuration step) is dropped whole: result `NeedIdr`, zero
outgoing bytes, no transcode call, the sender untouched, and only the
parameter-set caches updated in the decoder. -/
theorem submit_forces_needidr (env : StreamEnv) (s : DecoderState)
    (tr : SenderState) (unit : VideoDecodeUnit) (r : ReencodeSettings)
    (hr : env.reencode = some r) (hen : r.enabled = true)
    (hwait : (updatePipeline env s).waiting_for_idr = true)
    (hnokey : unitHasKeyframe unit = false) :
    submit_decode_unit env s tr unit =
      { result := DecodeResult.needIdr
        decoder := cache_parameter_sets (updatePipeline env s) unit.buffers.flatten
        sender := tr
        incoming_bytes := unit.buffers.foldl (fun acc b => satAdd64 acc b.length) 0
        outgoing_bytes := 0
        transcodeCalls := [] } := by
  have hwait2 : (cache_parameter_sets (updatePipeline env s)
      unit.buffers.flatten).waiting_for_idr = true := by
    rw [(cache_parameter_sets_preserves (updatePipeline env s)
      unit.buffers.flatten).2.2]
    exact hwait
  have hnokey' : (frame_has_idr unit.buffers.flatten ||
      decide (unit.frame_type = FrameType.idr)) = false := by
    simpa [unitHasKeyframe] using hnokey
  unfold submit_decode_unit
  rw [hr]
  simp only [hen, eq_self_iff_true, if_true, foldl_append_eq_flatten,
    List.nil_append, hwait2, hnokey', Bool.not_false, Bool.and_self,
    Bool.and_false, Bool.false_eq_true, if_false]

/-- Header injection touches only `needs_headers`: every other decoder
field survives it. -/
theorem inject_headers_preserves (s : DecoderState) (frame : List Nat) :
    (inject_headers_if_needed s frame).2.waiting_for_idr = s.waiting_for_idr ∧
    (inject_headers_if_needed s frame).2.ffmpeg = s.ffmpeg ∧
    (inject_headers_if_needed s frame).2.cached_sps = s.cached_sps ∧
    (inject_headers_if_needed s frame).2.cached_pps = s.cached_pps := by
  unfold inject_headers_if_needed
  split
  · exact ⟨rfl, rfl, rfl, rfl⟩
  · split <;> exact ⟨rfl, rfl, rfl, rfl⟩

/-- With reencoding enabled and the IDR gate not firing, the unit is
consumed: the result handed to the streaming engine is `Ok` whatever the
header-injection, pipeline and transcode outcomes. -/
theorem submit_enabled_noforce_ok (env : StreamEnv) (s : DecoderState)
    (tr : SenderState) (unit : VideoDecodeUnit) (r : ReencodeSettings)
    (hr : env.reencode = some r) (hen : r.enabled = true)
    (hforce : ((cache_parameter_sets (updatePipeline env s)
        unit.buffers.flatten).waiting_for_idr &&
      !(frame_has_idr unit.buffers.flatten ||
        decide (unit.frame_type = FrameType.idr))) = false) :
    (submit_decode_unit env s tr unit).result = DecodeResult.ok := by
  unfold submit_decode_unit
  rw [hr]
  simp only [hen, eq_self_iff_true, if_true, foldl_append_eq_flatten,
    List.nil_append, hforce, Bool.false_eq_true, if_false]
  repeat' split
  all_goals rfl

/-- A unit carrying a keyframe processed with reencoding enabled yields
`Ok` and leaves `waiting_for_idr` clear: a set gate is cleared by the
keyframe, a clear gate survives the rest of the path untouched. -/
theorem submit_keyframe_clears_waiting (env : StreamEnv) (s : DecoderState)
    (tr : SenderState) (unit : VideoDecodeUnit) (r : ReencodeSettings)
    (hr : env.reencode = some r) (hen : r.enabled = true)
    (hk : unitHasKeyframe unit = true) :
    (submit_decode_unit env s tr unit).result = DecodeResult.ok ∧
    (submit_decode_unit env s tr unit).decoder.waiting_for_idr = false := by
  have hk' : (frame_has_idr unit.buffers.flatten ||
      decide (unit.frame_type = FrameType.idr)) = true := by
    simpa [unitHasKeyframe] using hk
  unfold submit_decode_unit
  rw [hr]
  simp only [hen, eq_self_iff_true, if_true, foldl_append_eq_flatten,
    List.nil_append, hk', Bool.not_true, Bool.and_false, Bool.and_true,
    Bool.false_eq_true, if_false]
  cases hw : (cache_parameter_sets (updatePipeline env s)
      unit.buffers.flatten).waiting_for_idr <;>
    simp only [hw, Bool.false_eq_true, if_false, eq_self_iff_true, if_true] <;>
    constructor <;>
    (repeat' split) <;>
    simp [inject_headers_preserves, hw]

/-- C2: starting from a state that forces the IDR gate (no pipeline yet,
already waiting, or a changed configuration), every keyframe-free unit
yields `NeedIdr` with zero outgoing bytes, an untouched sender and no
transcode call; the first unit carrying a keyframe yields `Ok` and
leaves `waiting_for_idr` cleared in the decoder it hands on.  In
particular the result sequence is `NeedIdr^n ++ [Ok]`. -/
theorem reencode_waits_for_keyframe (env : StreamEnv) (r : ReencodeSettings)
    (kunit : VideoDecodeUnit) (hr : env.reencode = some r)
    (hen : r.enabled = true) (hk : unitHasKeyframe kunit = true) :
    ∀ units : List VideoDecodeUnit, (∀ u ∈ units, unitHasKeyframe u = false) →
    ∀ (s : DecoderState) (tr : SenderState),
    (s.ffmpeg = none ∨ s.waiting_for_idr = true ∨
      ∃ p, s.ffmpeg = some p ∧ p.config ≠ derivedConfig env r) →
    (submitSeq env s tr (units ++ [kunit])).map SubmitOutcome.result =
      List.replicate units.length DecodeResult.needIdr ++ [DecodeResult.ok] ∧
    (∀ o ∈ (submitSeq env s tr (units ++ [kunit])).take units.length,
      o.outgoing_bytes = 0 ∧ o.sender = tr ∧ o.transcodeCalls = []) ∧
    ∀ o ∈ (submitSeq env s tr (units ++ [kunit])).drop units.length,
      o.result = DecodeResult.ok ∧ o.decoder.waiting_for_idr = false := by
  intro units
  induction units with
  | nil =>
    intro _ s tr _
    have hck := submit_keyframe_clears_waiting env s tr kunit r hr hen hk
    refine ⟨?_, ?_, ?_⟩
    · simp [submitSeq, hck.1]
    · simp
    · intro o ho
      have ho' : o = submit_decode_unit env s tr kunit := by
        simpa [submitSeq] using ho
      rw [ho']
      exact hck
  | cons u us ih =>
    intro hall s tr hgate
    have hnokey : unitHasKeyframe u = false := hall u (by simp)
    have hwait : (updatePipeline env s).waiting_for_idr = true :=
      updatePipeline_gate env s r hr hen hgate
    have hstep := submit_forces_needidr env s tr u r hr hen hwait hnokey
    have hgate2 : (cache_parameter_sets (updatePipeline env s)
        u.buffers.flatten).ffmpeg = none ∨
        (cache_parameter_sets (updatePipeline env s)
          u.buffers.flatten).waiting_for_idr = true ∨
        ∃ p, (cache_parameter_sets (updatePipeline env s)
          u.buffers.flatten).ffmpeg = some p ∧
            p.config ≠ derivedConfig env r := by
      refine Or.inr (Or.inl ?_)
      rw [(cache_parameter_sets_preserves (updatePipeline env s)
        u.buffers.flatten).2.2]
      exact hwait
    have ihres := ih (fun x hx => hall x (by simp [hx]))
      (cache_parameter_sets (updatePipeline env s) u.buffers.flatten) tr hgate2
    have hseq : submitSeq env s tr ((u :: us) ++ [kunit]) =
        { result := DecodeResult.needIdr
          decoder := cache_parameter_sets (updatePipeline env s) u.buffers.flatten
          sender := tr
          incoming_bytes := u.buffers.foldl (fun acc b => satAdd64 acc b.length) 0
          outgoing_bytes := 0
          transcodeCalls := [] } ::
          submitSeq env (cache_parameter_sets (updatePipeline env s)
            u.buffers.flatten) tr (us ++ [kunit]) := by
      show (let o := submit_decode_unit env s tr u
        o :: submitSeq env o.decoder o.sender (us ++ [kunit])) = _
      rw [hstep]
    rw [hseq]
    refine ⟨?_, ?_, ?_⟩
    · simp only [List.map_cons, List.length_cons, List.replicate_succ,
        List.cons_append, ihres.1]
    · intro o ho
      simp only [List.length_cons, List.take_succ_cons] at ho
      rcases List.mem_cons.mp ho with h | h
      · rw [h]
        exact ⟨rfl, rfl, rfl⟩
      · exact ihres.2.1 o h
    · intro o ho
      simp only [List.length_cons, List.drop_succ_cons] at ho
      exact ihres.2.2 o ho

/-- C2 witness: three non-keyframe units then one keyframe unit, from a
fresh enable, give results `[NeedIdr, NeedIdr, NeedIdr, Ok]`, and the
keyframe unit's outcome leaves `waiting_for_idr` cleared. -/
theorem reencode_waits_for_keyframe_witness :
    sampleEnv.reencode = some sampleSettings ∧
    unitHasKeyframe sampleIUnit = true ∧
    (∀ u ∈ [samplePUnit, samplePUnit, samplePUnit], unitHasKeyframe u = false) ∧
    ((submitSeq sampleEnv freshDecoder sampleSender
        ([samplePUnit, samplePUnit, samplePUnit] ++ [sampleIUnit])).map
      SubmitOutcome.result =
      List.replicate 3 DecodeResult.needIdr ++ [DecodeResult.ok]) ∧
    ∀ o ∈ (submitSeq sampleEnv freshDecoder sampleSender
        ([samplePUnit, samplePUnit, samplePUnit] ++ [sampleIUnit])).drop 3,
      o.result = DecodeResult.ok ∧ o.decoder.waiting_for_idr = false :=
  ⟨rfl, by decide, by decide,
   (reencode_waits_for_keyframe sampleEnv sampleSettings sampleIUnit rfl rfl
      (by decide) [samplePUnit, samplePUnit, samplePUnit] (by decide)
      freshDecoder sampleSender (Or.inl rfl)).1,
   (reencode_waits_for_keyframe sampleEnv sampleSettings sampleIUnit rfl rfl
      (by decide) [samplePUnit, samplePUnit, samplePUnit] (by decide)
      freshDecoder sampleSender (Or.inl rfl)).2.2⟩

/-- C1 counterexample: with reencoding enabled, an active matching
pipeline, `needs_headers` set, only the SPS cached (the processed unit
carries no parameter sets) and no `waiting_for_idr` gate, the unit is
not transcoded — but, contrary to the claim, it IS forwarded: a
passthrough message goes out on the transport and the recorded outgoing
byte count equals the incoming one (1, not 0). -/
theorem headers_missing_pps_counterexample :
    sampleEnv.reencode = some sampleSettings ∧
    sampleSettings.enabled = true ∧
    spsOnlyDecoder.ffmpeg = some { config := sampleConfig, initialized := true } ∧
    spsOnlyDecoder.needs_headers = true ∧
    spsOnlyDecoder.cached_sps.isSome = true ∧
    spsOnlyDecoder.cached_pps = none ∧
    spsOnlyDecoder.waiting_for_idr = false ∧
    (cache_parameter_sets (updatePipeline sampleEnv spsOnlyDecoder)
      headerlessUnit.buffers.flatten).cached_pps = none ∧
    (submit_decode_unit sampleEnv spsOnlyDecoder sampleSender
      headerlessUnit).transcodeCalls = [] ∧
    (submit_decode_unit sampleEnv spsOnlyDecoder sampleSender
      headerlessUnit).outgoing_bytes = 1 ∧
    (submit_decode_unit sampleEnv spsOnlyDecoder sampleSender
      headerlessUnit).incoming_bytes = 1 ∧
    (submit_decode_unit sampleEnv spsOnlyDecoder sampleSender
      headerlessUnit).sender.sent = [videoUnitMessage headerlessUnit] :=
  ⟨rfl, rfl, rfl, rfl, rfl, rfl, rfl, rfl, rfl, rfl, rfl, rfl⟩

/-- C1 (amended): with reencoding enabled, `needs_headers` set and the
PPS missing from the cache when the unit is processed (and the unit not
gated by `waiting_for_idr`), the unit is not transcoded — but it is
forwarded unmodified as passthrough, its recorded outgoing byte count
equals the incoming one, and the result is `Ok`. -/
theorem headers_missing_pps_passthrough (env : StreamEnv) (s : DecoderState)
    (tr : SenderState) (unit : VideoDecodeUnit) (r : ReencodeSettings)
    (hr : env.reencode = some r) (hen : r.enabled = true)
    (hopen : tr.channelOpen = true)
    (hsps : (cache_parameter_sets (updatePipeline env s)
      unit.buffers.flatten).cached_sps.isSome = true)
    (hpps : (cache_parameter_sets (updatePipeline env s)
      unit.buffers.flatten).cached_pps = none)
    (hnh : (cache_parameter_sets (updatePipeline env s)
      unit.buffers.flatten).needs_headers = true)
    (hgate : ((cache_parameter_sets (updatePipeline env s)
        unit.buffers.flatten).waiting_for_idr &&
      !(frame_has_idr unit.buffers.flatten ||
        decide (unit.frame_type = FrameType.idr))) = false) :
    (submit_decode_unit env s tr unit).result = DecodeResult.ok ∧
    (submit_decode_unit env s tr unit).transcodeCalls = [] ∧
    (submit_decode_unit env s tr unit).outgoing_bytes =
      (submit_decode_unit env s tr unit).incoming_bytes ∧
    (submit_decode_unit env s tr unit).sender.sent =
      tr.sent ++ [videoUnitMessage unit] := by
  unfold submit_decode_unit
  rw [hr]
  simp only [hen, eq_self_iff_true, if_true, foldl_append_eq_flatten,
    List.nil_append, hgate, Bool.false_eq_true, if_false]
  split
  all_goals
    cases hsp : (cache_parameter_sets (updatePipeline env s)
      unit.buffers.flatten).cached_sps <;>
    cases hff : (cache_parameter_sets (updatePipeline env s)
      unit.buffers.flatten).ffmpeg <;>
    cases hni : tr.needs_idr <;>
    cases hft : unit.frame_type <;>
    simp [inject_headers_if_needed, hnh, hpps, hsp, hff, hni, hft, hopen,
      send_video_unit, videoUnitMessage, frameTypeByte,
      foldl_append_eq_flatten]

/-- C1 amended-theorem witness: the counterexample input satisfies the
hypotheses and the passthrough conclusion evaluates there. -/
theorem headers_missing_pps_passthrough_witness :
    sampleSender.channelOpen = true ∧
    (cache_parameter_sets (updatePipeline sampleEnv spsOnlyDecoder)
      headerlessUnit.buffers.flatten).cached_pps = none ∧
    (submit_decode_unit sampleEnv spsOnlyDecoder sampleSender
        headerlessUnit).sender.sent =
      sampleSender.sent ++ [videoUnitMessage headerlessUnit] :=
  ⟨rfl, rfl,
   (headers_missing_pps_passthrough sampleEnv spsOnlyDecoder sampleSender
      headerlessUnit sampleSettings rfl rfl rfl (by decide) (by decide)
      (by decide) (by decide)).2.2.2⟩

/-- C5: a probe response whose sequence number differs from the stored
one only flips the logged-mismatch flag — the round otherwise proceeds
exactly as a matching response would: the same RTT is reported, the
shared pair is advanced to the incremented stored sequence number, and
the same packets go out.  Every received `Rtt` packet (matching or not)
schedules exactly one new round whose baseline argument is the attached
sequence number. -/
theorem rtt_mismatch_tolerated
    (serialize : OutboundPacket → Option (Nat × List Nat))
    (deserialize : Nat → List Nat → Option InboundPacket)
    (pair : Nat × Nat) (st st2 : SenderState) (recv now now2 : Nat) :
    (recv_rtt serialize pair st recv now now2).mismatch = decide (recv ≠ pair.2) ∧
    recv_rtt serialize pair st recv now now2 =
      { recv_rtt serialize pair st pair.2 now now2 with
          mismatch := decide (recv ≠ pair.2) } ∧
    (recv_rtt serialize pair st recv now now2).pair =
      (now2, (pair.2 + 1) % 2 ^ 16) ∧
    (∀ b bs n, deserialize b bs = some (InboundPacket.rtt n) →
      (on_ipc_message deserialize st2
        (ServerIpcMessage.webSocketTransport (b :: bs))).2.2 = [n]) := by
  refine ⟨rfl, rfl, rfl, ?_⟩
  intro b bs n hd
  cases hopen : st2.channelOpen <;> simp [on_ipc_message, hd, hopen]

/-- C5 witness: stored sequence number 5, received 3 — the mismatch is
flagged, the next probe still uses sequence number 6, and a received
`Rtt {7}` packet spawns a round with baseline 7. -/
theorem rtt_mismatch_tolerated_witness :
    (recv_rtt sampleSerialize (100, 5) sampleSender 3 150 400).mismatch = true ∧
    (recv_rtt sampleSerialize (100, 5) sampleSender 3 150 400).pair = (400, 6) ∧
    (on_ipc_message sampleDeserialize sampleSender
      (ServerIpcMessage.webSocketTransport [2, 0])).2.2 = [7] :=
  ⟨((rtt_mismatch_tolerated sampleSerialize sampleDeserialize (100, 5) sampleSender
      sampleSender 3 150 400).1).trans (by decide),
   ((rtt_mismatch_tolerated sampleSerialize sampleDeserialize (100, 5) sampleSender
      sampleSender 3 150 400).2.2.1).trans (by decide),
   (rtt_mismatch_tolerated sampleSerialize sampleDeserialize (100, 5) sampleSender
      sampleSender 3 150 400).2.2.2 2 [0] 7 rfl⟩

/-- C7: whenever the emission condition holds, `analyze` emits a report
whose averages are the guarded quotients sum/count over the sampled
window (`0` exactly when the count is zero), and resets every
accumulator to its identity: min fields to the maximum representable
duration, max fields and sums and counts and both byte counters to
zero. -/
theorem stats_emit_and_reset (s : VideoStats) (host : Option Nat)
    (fpt incoming outgoing now : Nat)
    (hdue : s.last_send = none ∨ ∃ ls, s.last_send = some ls ∧ ls + 1000000000 < now) :
    (VideoStats.analyze s host fpt incoming outgoing now).2 =
      some
        (StatsReport.video
          (if 0 < (VideoStats.sample s host fpt incoming outgoing).host_processing_frame_count then
            some ((VideoStats.sample s host fpt incoming outgoing).min_host_processing_latency,
              (VideoStats.sample s host fpt incoming outgoing).max_host_processing_latency,
              checkedDivGuarded
                (VideoStats.sample s host fpt incoming outgoing).total_host_processing_latency
                (VideoStats.sample s host fpt incoming outgoing).host_processing_frame_count)
          else none)
          (VideoStats.sample s host fpt incoming outgoing).min_streamer_processing_time
          (VideoStats.sample s host fpt incoming outgoing).max_streamer_processing_time
          (checkedDivGuarded
            (VideoStats.sample s host fpt incoming outgoing).total_streamer_processing_time
            (VideoStats.sample s host fpt incoming outgoing).streamer_processing_time_frame_count),
         StatsReport.bandwidth
          (VideoStats.sample s host fpt incoming outgoing).incoming_bytes
          (VideoStats.sample s host fpt incoming outgoing).outgoing_bytes
          (match s.last_bandwidth_sample with
           | some last => now - last
           | none => 1000000000)) ∧
    (VideoStats.analyze s host fpt incoming outgoing now).1 =
      { last_send := some now
        min_host_processing_latency := durationMax
        max_host_processing_latency := 0
        total_host_processing_latency := 0
        host_processing_frame_count := 0
        min_streamer_processing_time := durationMax
        max_streamer_processing_time := 0
        total_streamer_processing_time := 0
        streamer_processing_time_frame_count := 0
        incoming_bytes := 0
        outgoing_bytes := 0
        last_bandwidth_sample := some now } ∧
    (∀ total, checkedDivGuarded total 0 = 0) ∧
    (∀ total count, 0 < count → count < 2 ^ 32 →
      checkedDivGuarded total count = total / count) := by
  have hcond :
      (match (VideoStats.sample s host fpt incoming outgoing).last_send with
        | some last_send => decide (last_send + 1000000000 < now)
        | none => true) = true := by
    rw [(sample_timestamps s host fpt incoming outgoing).1]
    rcases hdue with h | ⟨ls, hls, hlt⟩
    · rw [h]
    · rw [hls]
      simpa using hlt
  have hbw := (sample_timestamps s host fpt incoming outgoing).2
  refine ⟨?_, ?_, ?_, ?_⟩
  · unfold VideoStats.analyze
    simp only [hcond, hbw, if_true]
  · unfold VideoStats.analyze
    simp only [hcond, if_true]
  · intro total
    simp [checkedDivGuarded]
  · intro total count h0 hlt
    have hm : count % 2 ^ 32 = count := Nat.mod_eq_of_lt hlt
    unfold checkedDivGuarded
    rw [hm]
    simp [Nat.pos_iff_ne_zero.mp h0]

/-- C7 witness: a due accumulator with three sampled frames emits the
expected averages and is fully reset. -/
theorem stats_emit_and_reset_witness :
    (VideoStats.default.last_send = none ∨
      ∃ ls, VideoStats.default.last_send = some ls ∧ ls + 1000000000 < 7) ∧
    (VideoStats.analyze VideoStats.default (some 10) 4 100 50 7).1.incoming_bytes = 0 ∧
    (VideoStats.analyze VideoStats.default (some 10) 4 100 50
      7).1.min_streamer_processing_time = durationMax :=
  ⟨Or.inl rfl,
   by
    rw [(stats_emit_and_reset VideoStats.default (some 10) 4 100 50 7 (Or.inl rfl)).2.1],
   by
    rw [(stats_emit_and_reset VideoStats.default (some 10) 4 100 50 7 (Or.inl rfl)).2.1]⟩

/-- `send_video_unit` case analysis: a closed channel errors without
touching the flag; an open channel consumes a set flag into `NeedIdr`
and otherwise returns `Ok`, the flag ending clear either way. -/
theorem send_video_unit_cases (st : SenderState) (u : VideoDecodeUnit) :
    (st.channelOpen = false →
      (send_video_unit st u).1 = Except.error TransportError.closed ∧
      (send_video_unit st u).2 = st) ∧
    (st.channelOpen = true → st.needs_idr = true →
      (send_video_unit st u).1 = Except.ok DecodeResult.needIdr ∧
      (send_video_unit st u).2.needs_idr = false) ∧
    (st.channelOpen = true → st.needs_idr = false →
      (send_video_unit st u).1 = Except.ok DecodeResult.ok ∧
      (send_video_unit st u).2.needs_idr = false) := by
  cases hopen : st.channelOpen <;> cases hflag : st.needs_idr <;>
    simp [send_video_unit, hopen, hflag]

/-- No session step changes whether the event channel is open. -/
theorem sessionStep_channelOpen (deserialize : Nat → List Nat → Option InboundPacket)
    (st : SenderState) (e : SessionEvent) :
    (sessionStep deserialize st e).channelOpen = st.channelOpen := by
  cases e with
  | submitUnit u =>
    cases hopen : st.channelOpen <;> cases hflag : st.needs_idr <;>
      simp [sessionStep, send_video_unit, hopen, hflag]
  | ipc m =>
    cases m with
    | webSocketTransport bytes =>
      cases bytes with
      | nil => rfl
      | cons b bs =>
        cases hd : deserialize b bs with
        | none => simp [sessionStep, on_ipc_message, hd]
        | some packet =>
          by_cases hp : packet = InboundPacket.requestVideoIdr <;>
            cases hopen : st.channelOpen <;>
              simp [sessionStep, on_ipc_message, hd, hp, hopen]
    | startStream fields =>
      cases hopen : st.channelOpen <;> simp [sessionStep, on_ipc_message, hopen]
    | otherMessage => rfl

/-- A session step on an event that is not a decodable keyframe request
keeps a clear `needs_idr` flag clear. -/
theorem sessionStep_no_request (deserialize : Nat → List Nat → Option InboundPacket)
    (st : SenderState) (e : SessionEvent) (hflag : st.needs_idr = false)
    (hreq : isIdrRequest deserialize e = false) :
    (sessionStep deserialize st e).needs_idr = false := by
  cases e with
  | submitUnit u =>
    cases hopen : st.channelOpen <;>
      simp [sessionStep, send_video_unit, hopen, hflag]
  | ipc m =>
    cases m with
    | webSocketTransport bytes =>
      cases bytes with
      | nil => simpa [sessionStep, on_ipc_message] using hflag
      | cons b bs =>
        cases hd : deserialize b bs with
        | none => simpa [sessionStep, on_ipc_message, hd] using hflag
        | some packet =>
          simp only [isIdrRequest, hd] at hreq
          have hp : packet ≠ InboundPacket.requestVideoIdr := by
            intro hcontra
            subst hcontra
            simp at hreq
          cases hopen : st.channelOpen <;>
            simp [sessionStep, on_ipc_message, hd, hp, hopen, hflag]
    | startStream fields =>
      cases hopen : st.channelOpen <;>
        simp [sessionStep, on_ipc_message, hopen, hflag]
    | otherMessage => simpa [sessionStep, on_ipc_message] using hflag

/-- Over a request-free event window starting with a clear flag, the
flag stays clear and no `send_video_unit` call reports `NeedIdr`; with
the channel open every such call reports `Ok`. -/
theorem sessionRun_no_request (deserialize : Nat → List Nat → Option InboundPacket)
    (events : List SessionEvent) :
    ∀ st : SenderState, st.needs_idr = false →
    (∀ e ∈ events, isIdrRequest deserialize e = false) →
    (sessionRun deserialize st events).needs_idr = false ∧
    Except.ok DecodeResult.needIdr ∉ sessionResults deserialize st events ∧
    (st.channelOpen = true →
      ∀ r ∈ sessionResults deserialize st events, r = Except.ok DecodeResult.ok) := by
  induction events with
  | nil =>
    intro st hflag _
    exact ⟨hflag, by simp [sessionResults], by simp [sessionResults]⟩
  | cons e es ih =>
    intro st hflag hreq
    have hreq0 : isIdrRequest deserialize e = false := hreq e (by simp)
    have hreqs : ∀ x ∈ es, isIdrRequest deserialize x = false :=
      fun x hx => hreq x (by simp [hx])
    have hflag1 : (sessionStep deserialize st e).needs_idr = false :=
      sessionStep_no_request deserialize st e hflag hreq0
    have ihe := ih (sessionStep deserialize st e) hflag1 hreqs
    cases e with
    | submitUnit u =>
      have hhead : (send_video_unit st u).1 ≠ Except.ok DecodeResult.needIdr := by
        cases hopen : st.channelOpen with
        | false => simp [((send_video_unit_cases st u).1 hopen).1]
        | true => simp [((send_video_unit_cases st u).2.2 hopen hflag).1]
      refine ⟨ihe.1, ?_, ?_⟩
      · intro hmem
        rcases List.mem_cons.mp hmem with h | h
        · exact hhead h.symm
        · exact ihe.2.1 h
      · intro hopen r hr
        rcases List.mem_cons.mp hr with h | h
        · rw [h]
          exact ((send_video_unit_cases st u).2.2 hopen hflag).1
        · exact ihe.2.2
            (by rw [sessionStep_channelOpen]; exact hopen) r h
    | ipc m =>
      refine ⟨ihe.1, ihe.2.1, ?_⟩
      intro hopen r hr
      exact ihe.2.2 (by rw [sessionStep_channelOpen]; exact hopen) r hr

/-- C9: a `send_video_unit` call reports `NeedIdr` only when the
`needs_idr` flag was set (which only a decoded `RequestVideoIdr`
message does), the reporting call itself clears the flag, and across
any following window free of keyframe requests the flag stays clear, no
call reports `NeedIdr` again, and (with the channel open) every call
reports `Ok`. -/
theorem needidr_consumed_once (deserialize : Nat → List Nat → Option InboundPacket)
    (st : SenderState) (u : VideoDecodeUnit) (events : List SessionEvent)
    (hneed : (send_video_unit st u).1 = Except.ok DecodeResult.needIdr)
    (hnoreq : ∀ e ∈ events, isIdrRequest deserialize e = false) :
    st.needs_idr = true ∧
    (send_video_unit st u).2.needs_idr = false ∧
    (sessionRun deserialize (send_video_unit st u).2 events).needs_idr = false ∧
    Except.ok DecodeResult.needIdr ∉
      sessionResults deserialize (send_video_unit st u).2 events ∧
    (st.channelOpen = true →
      ∀ r ∈ sessionResults deserialize (send_video_unit st u).2 events,
        r = Except.ok DecodeResult.ok) ∧
    (∀ st2 b bs, deserialize b bs = some InboundPacket.requestVideoIdr →
      (on_ipc_message deserialize st2
        (ServerIpcMessage.webSocketTransport (b :: bs))).2.1.needs_idr = true) := by
  have hopen : st.channelOpen = true := by
    cases h : st.channelOpen with
    | false =>
      rw [((send_video_unit_cases st u).1 h).1] at hneed
      exact absurd hneed (by simp)
    | true => rfl
  have hflag : st.needs_idr = true := by
    cases h : st.needs_idr with
    | false =>
      rw [((send_video_unit_cases st u).2.2 hopen h).1] at hneed
      exact absurd hneed (by simp)
    | true => rfl
  have hcons : (send_video_unit st u).2.needs_idr = false :=
    ((send_video_unit_cases st u).2.1 hopen hflag).2
  have hrun := sessionRun_no_request deserialize events (send_video_unit st u).2
    hcons hnoreq
  refine ⟨hflag, hcons, hrun.1, hrun.2.1, ?_, ?_⟩
  · intro _
    refine hrun.2.2 ?_
    cases hf : st.needs_idr <;> simp [send_video_unit, hopen, hf]
  · intro st2 b bs hd
    cases hopen2 : st2.channelOpen <;> simp [on_ipc_message, hd, hopen2]

/-- C9 witness: with the flag set, a concrete call reports `NeedIdr`
and a following request-free window reports only `Ok`. -/
theorem needidr_consumed_once_witness :
    (send_video_unit { channelOpen := true, needs_idr := true, sent := [] }
      samplePUnit).1 = Except.ok DecodeResult.needIdr ∧
    (∀ e ∈ [SessionEvent.submitUnit sampleIUnit],
      isIdrRequest sampleDeserialize e = false) ∧
    Except.ok DecodeResult.needIdr ∉
      sessionResults sampleDeserialize
        (send_video_unit { channelOpen := true, needs_idr := true, sent := [] }
          samplePUnit).2
        [SessionEvent.submitUnit sampleIUnit] :=
  ⟨rfl, by decide,
   (needidr_consumed_once sampleDeserialize
      { channelOpen := true, needs_idr := true, sent := [] } samplePUnit
      [SessionEvent.submitUnit sampleIUnit] rfl (by decide)).2.2.2.1⟩

/-- C8 witness: at concrete inputs, a failed serialization yields `Ok`,
an open channel yields `Ok`, and an empty inbound frame yields `Ok`. -/
theorem transport_errors_only_closed_witness :
    send_packet (fun _ => none) sampleSender (OutboundPacket.rtt 1) =
      (Except.ok (), sampleSender) ∧
    (on_ipc_message (fun _ _ => none) sampleSender
      (ServerIpcMessage.webSocketTransport [7, 7])).1 = Except.ok () :=
  ⟨(transport_errors_only_closed (fun _ => none) (fun _ _ => none) sampleSender
      (OutboundPacket.rtt 1) (ServerIpcMessage.webSocketTransport [7, 7])).2.1 rfl,
   (transport_errors_only_closed (fun _ => none) (fun _ _ => none) sampleSender
      (OutboundPacket.rtt 1)
      (ServerIpcMessage.webSocketTransport [7, 7])).2.2.2.2.2.2.2 rfl⟩

end Streamer
